import Mathlib

/-!
# index.js: a single-route Express server

The program is eleven lines:

    const express = require('express');
    const app = express();
    const port = process.env.PORT || 3000;
    app.get('/', (req, res) => { res.send('Hello from a Dockerized Node app! 🚀'); });
    app.listen(port, () => { console.log(`Server running on port ${port}`); });

The embedding has two layers.  The first is the program itself: the value of
`port`, the route table built by `app.get`, the handler body and the
arguments of `app.listen`.  The second is the part of JavaScript, Express and
Node that these lines call into: the `||` operator, the router's dispatch
loop, `res.send` and the way `listen` reads its port argument.  index.js does
not say which Express it runs on, and the two current major versions differ in
places that matter here, so that layer takes the version as a parameter: for
Express 4 it follows `lib/router/index.js`, `lib/router/route.js`,
`lib/router/layer.js`, `lib/response.js`, `lib/request.js` and `fresh` 0.5.2,
for Express 5 the `router` package (2.x) with `path-to-regexp` 8 and `fresh`
2.0.  The reading of the port follows `normalizeArgs` and `listen` in Node's
`net` module.  What happens when the port cannot be bound is decided inside
`app.listen` and the event loop and is not part of the embedding.
-/

namespace AzureDocker

/-! ## JavaScript values -/

/-- The JavaScript values that reach `port`: `undefined` (a missing property of
`process.env`), a number, or a string (every value stored in `process.env`
is a string). -/
inductive JSValue where
  | undefined
  | num (n : Int)
  | str (s : String)
  deriving DecidableEq, Repr

namespace JSValue

/-- JavaScript `ToBoolean`: `undefined`, `0` and the empty string are falsy. -/
def truthy : JSValue → Bool
  | undefined => false
  | num n => n != 0
  | str s => s != ""

/-- The operator `a || b`: the left operand when it is truthy, else the right one. -/
def or (a b : JSValue) : JSValue :=
  if a.truthy then a else b

/-- What `Number.isInteger` answers: only a value of type number can be an integer. -/
def isInteger : JSValue → Bool
  | num _ => true
  | _ => false

/-- String conversion inside a template literal. -/
def render : JSValue → String
  | undefined => "undefined"
  | num n => toString n
  | str s => s

end JSValue

/-! ## The environment and the port -/

/-- The process environment: names bound to strings. -/
abbrev Env := List (String × String)

/-- Property access `process.env.NAME`. -/
def Env.get (env : Env) (name : String) : JSValue :=
  match env.lookup name with
  | some s => .str s
  | none => .undefined

/-- Line 3: `const port = process.env.PORT || 3000`. -/
def port (env : Env) : JSValue :=
  (env.get "PORT").or (.num 3000)

/-! ## Requests and responses -/

/-- The major version of Express the program is installed with. -/
inductive ExpressVersion where
  | v4
  | v5
  deriving DecidableEq, Repr

/-- An incoming HTTP request as Express presents it to the router: the method
name (Node hands it over in upper case), the pathname `parseurl` extracts from
the request target (the query string is split off), the query string, the
header object (names in lower case) and the body.  A request target without
pathname, for which `parseurl` gives `null`, is written as the empty `path`;
the pathname of a target that has one is never empty. -/
structure Request where
  method : String
  path : String
  query : String := ""
  headers : List (String × String) := []
  body : String := ""
  deriving Repr

/-- Property access `req.headers[name]`. -/
def Request.header (req : Request) (name : String) : Option String :=
  req.headers.lookup name

/-- The reply a request ends with: one written through `res.send` (or, for the
automatic OPTIONS reply of Express 5, `res.end`), or the default page of
Express's final handler, whose status is 404. -/
inductive Response where
  | sent (status : Nat) (body : String)
  | notFound
  deriving DecidableEq, Repr

/-- Status code of a reply. -/
def Response.status : Response → Nat
  | .sent status _ => status
  | .notFound => 404

/-! ## Cache freshness (`fresh`, called by `req.fresh`) -/

/-- Characters matched by `\s` in a JavaScript regular expression. -/
def isJsSpace (c : Char) : Bool :=
  let n := c.toNat
  (9 ≤ n && n ≤ 13) || n == 0x20 || n == 0xA0 || n == 0x1680 || (0x2000 ≤ n && n ≤ 0x200A) ||
    n == 0x2028 || n == 0x2029 || n == 0x202F || n == 0x205F || n == 0x3000 || n == 0xFEFF

/-- Pieces of a character list between commas. -/
def splitComma : List Char → List (List Char)
  | [] => [[]]
  | c :: cs =>
    match splitComma cs with
    | [] => [[]]
    | piece :: pieces => if c = ',' then [] :: piece :: pieces else (c :: piece) :: pieces

/-- Strip `\s` characters at both ends. -/
def trimJsSpace (cs : List Char) : List Char :=
  ((cs.dropWhile isJsSpace).reverse.dropWhile isJsSpace).reverse

/-- The test `/(?:^|,)\s*?no-cache\s*?(?:,|$)/.test(cacheControl)`: some
comma-separated piece is `no-cache` up to surrounding white space. -/
def hasNoCache (cacheControl : String) : Bool :=
  (splitComma cacheControl.toList).any fun piece => trimJsSpace piece == "no-cache".toList

/-- The call `str.substring(start, stop)` for `start ≤ stop`. -/
def substring (str : List Char) (start stop : Nat) : List Char :=
  (str.drop start).take (stop - start)

/-- The loop of `parseTokenList`: `i` is the index of the next character,
`start` and `stop` delimit the token being read, `list` holds the tokens
pushed so far. -/
def parseTokenListLoop (str : List Char) :
    List Char → Nat → Nat → Nat → List (List Char) → List (List Char)
  | [], _, start, stop, list => list ++ [substring str start stop]
  | c :: rest, i, start, stop, list =>
    if c = ' ' then
      if start = stop then parseTokenListLoop str rest (i + 1) (i + 1) (i + 1) list
      else parseTokenListLoop str rest (i + 1) start stop list
    else if c = ',' then
      parseTokenListLoop str rest (i + 1) (i + 1) (i + 1) (list ++ [substring str start stop])
    else parseTokenListLoop str rest (i + 1) start (i + 1) list

/-- The function `parseTokenList(str)`: the comma-separated tokens of a header
value, leading blanks and trailing blanks dropped. -/
def parseTokenList (str : String) : List String :=
  (parseTokenListLoop str.toList str.toList 0 0 0 []).map String.mk

/-- JavaScript truthiness of a header value: present and not empty. -/
def present : Option String → Bool
  | some s => s != ""
  | none => false

/-- Whether some token of an `If-None-Match` value names the entity tag, weak
comparison: `match === etag || match === 'W/' + etag || 'W/' + match === etag`. -/
def etagMatches (noneMatch etag : String) : Bool :=
  (parseTokenList noneMatch).any fun m => m == etag || m == "W/" ++ etag || "W/" ++ m == etag

/-- The function `fresh(reqHeaders, resHeaders)` for a reply that carries the
entity tag `etag` and no `Last-Modified` header (`res.send` sets none, and
index.js sets none either), so that an `If-Modified-Since` condition is always
stale.  In `fresh` 0.5.2 (Express 4) a matching `If-None-Match` is followed by
the `If-Modified-Since` check; in `fresh` 2.0 (Express 5) `If-None-Match`,
when present, decides alone. -/
def fresh (v : ExpressVersion) (req : Request) (etag : String) : Bool :=
  let modifiedSince := req.header "if-modified-since"
  let noneMatch := req.header "if-none-match"
  if !present modifiedSince && !present noneMatch then false
  else if present (req.header "cache-control") &&
      hasNoCache ((req.header "cache-control").getD "") then false
  else
    match v with
    | .v4 =>
      if present noneMatch && noneMatch != some "*" &&
          (etag == "" || !etagMatches (noneMatch.getD "") etag) then false
      else if present modifiedSince then false
      else true
    | .v5 =>
      if present noneMatch then
        if noneMatch == some "*" then true
        else if etag == "" then false
        else etagMatches (noneMatch.getD "") etag
      else false

/-- The getter `req.fresh`: only GET and HEAD requests whose reply has a 2xx
or 304 status are checked for freshness. -/
def reqFresh (v : ExpressVersion) (req : Request) (status : Nat) (etag : String) : Bool :=
  if req.method != "GET" && req.method != "HEAD" then false
  else if (200 ≤ status && status < 300) || status == 304 then fresh v req etag
  else false

/-- The call `res.send(chunk)` with a string, on a reply whose status code is
`status` (200 unless set otherwise).  `etagFn` is the application's entity-tag
function (a hash of the body, left abstract).  A fresh request gets status
304; 204, 205 and 304 replies lose their body; a HEAD request gets no body. -/
def send (v : ExpressVersion) (etagFn : String → String) (req : Request) (status : Nat)
    (chunk : String) : Response :=
  let status := if reqFresh v req status (etagFn chunk) then 304 else status
  let chunk := if status == 204 || status == 304 || status == 205 then "" else chunk
  if req.method == "HEAD" then .sent status "" else .sent status chunk

/-! ## The router -/

/-- Mutable state of the running program: what it has written to the console.
The bindings `express`, `app` and `port` are constants. -/
structure ProgramState where
  console : List String
  deriving DecidableEq, Repr

/-- How a route handler leaves the request: it ends the reply with
`res.send(chunk)`, or it passes the request on with `next()`. -/
inductive HandlerResult where
  | send (chunk : String)
  | next
  deriving DecidableEq, Repr

/-- A route handler `(req, res) => ...`, with the program state it may read and write. -/
abbrev Handler := ProgramState → Request → ProgramState × HandlerResult

/-- A handler registered on a route under one method. -/
structure Layer where
  method : String
  handle : Handler

/-- The path of a route.  Only the root path `'/'` is modelled: it is the only
one index.js registers. -/
inductive RoutePath where
  | root
  deriving DecidableEq, Repr

/-- A route: a path and the handlers registered on it. -/
structure Route where
  path : RoutePath
  stack : List Layer

/-- The methods a route has handlers for (the keys of `route.methods`). -/
def Route.methods (r : Route) : List String :=
  (r.stack.map fun l => l.method).eraseDups

/-- The method `Route.prototype._handles_method`: a HEAD request is handled by
the GET handlers of a route that has no HEAD handler of its own. -/
def Route.handlesMethod (r : Route) (method : String) : Bool :=
  let name := if method == "HEAD" && !r.methods.contains "HEAD" then "GET" else method
  r.methods.contains name

/-- The method `Route.prototype._options` (`_methods` in Express 5): the
methods a route answers, HEAD added after GET. -/
def Route.options (r : Route) : List String :=
  if r.methods.contains "GET" && !r.methods.contains "HEAD" then r.methods ++ ["HEAD"]
  else r.methods

/-- The helper `appendMethods(list, addition)`: push what is not yet listed. -/
def appendMethods (list addition : List String) : List String :=
  addition.foldl (fun acc m => if acc.contains m then acc else acc ++ [m]) list

/-- Order of two strings as `Array.prototype.sort` compares them, character
by character (method names are ASCII). -/
def lexLe : List Char → List Char → Bool
  | [], _ => true
  | _ :: _, [] => false
  | a :: as, b :: bs =>
    if a.toNat < b.toNat then true
    else if b.toNat < a.toNat then false
    else lexLe as bs

/-- Insert a string into a sorted list. -/
def insertSorted (m : String) : List String → List String
  | [] => [m]
  | x :: xs => if lexLe m.toList x.toList then m :: x :: xs else x :: insertSorted m xs

/-- The sorted list of the strings of a list. -/
def sortStrings (l : List String) : List String :=
  l.foldr insertSorted []

/-- Matching of a request pathname against the pattern a route path is
compiled to (the `i` flag plays no part: the pattern has no letter).
Express 4 compiles `'/'` with `path-to-regexp` 0.1 to `^\/?$`, which accepts
the empty string and `/`.  Express 5 compiles it with `path-to-regexp` 8
(`trailing: true`) to `^(?:\/)(?:\/$)?$`, which accepts `/` and `//`. -/
def matchLayer (v : ExpressVersion) (r : Route) (pathname : String) : Bool :=
  match v, r.path with
  | .v4, .root => pathname == "" || pathname == "/"
  | .v5, .root => pathname == "/" || pathname == "//"

/-- The method `Route.prototype.dispatch`: run, in order, the handlers whose
method is the request's (GET for a HEAD request on a route without HEAD
handler) until one sends the reply.  Returns the state, the number of handlers
called and the chunk sent, if any. -/
def Route.dispatch (method : String) (req : Request) :
    List Layer → ProgramState → Nat → ProgramState × Nat × Option String
  | [], st, calls => (st, calls, none)
  | l :: rest, st, calls =>
    if l.method != method then Route.dispatch method req rest st calls
    else
      match l.handle st req with
      | (st', .send chunk) => (st', calls + 1, some chunk)
      | (st', .next) => Route.dispatch method req rest st' (calls + 1)

/-- What handling a request produces: the reply and how many route handlers ran. -/
structure Outcome where
  response : Response
  handlerCalls : Nat
  deriving DecidableEq, Repr

/-- The automatic reply to an OPTIONS request that no handler answered, from
the methods collected.  Express 4: `res.send(options.join(','))`.  Express 5:
the distinct methods, sorted and joined by `', '`, written with `res.end`. -/
def sendOptionsResponse (v : ExpressVersion) (etagFn : String → String) (req : Request)
    (options : List String) : Response :=
  match v with
  | .v4 => send v etagFn req 200 (",".intercalate options)
  | .v5 => .sent 200 (", ".intercalate (sortStrings options.eraseDups))

/-- The router's `next` loop over its stack of routes.  A route whose path
matches is dispatched when it handles the method (or the method is HEAD);
for an OPTIONS request the methods of matching routes are collected (without
repetition in Express 4).  When the stack is exhausted an OPTIONS request with
collected methods gets the automatic reply, any other request the final
handler (404). -/
def routerNext (v : ExpressVersion) (etagFn : String → String) (req : Request) :
    List Route → List String → ProgramState → Nat → ProgramState × Outcome
  | [], options, st, calls =>
    if req.method == "OPTIONS" && !options.isEmpty then
      (st, ⟨sendOptionsResponse v etagFn req options, calls⟩)
    else (st, ⟨.notFound, calls⟩)
  | r :: rest, options, st, calls =>
    if !matchLayer v r req.path then routerNext v etagFn req rest options st calls
    else
      let hasMethod := r.handlesMethod req.method
      let options :=
        if !hasMethod && req.method == "OPTIONS" then
          match v with
          | .v4 => appendMethods options r.options
          | .v5 => options ++ r.options
        else options
      if !hasMethod && req.method != "HEAD" then
        routerNext v etagFn req rest options st calls
      else
        let method :=
          if req.method == "HEAD" && !r.methods.contains "HEAD" then "GET" else req.method
        match Route.dispatch method req r.stack st calls with
        | (st', calls', some chunk) => (st', ⟨send v etagFn req 200 chunk, calls'⟩)
        | (st', calls', none) => routerNext v etagFn req rest options st' calls'

/-- The router's `handle`: a request without pathname (`path == null` in
`next`) goes to the final handler at once, any other request through the
stack. -/
def routerHandle (v : ExpressVersion) (etagFn : String → String) (req : Request)
    (stack : List Route) (st : ProgramState) : ProgramState × Outcome :=
  if req.path == "" then (st, ⟨.notFound, 0⟩)
  else routerNext v etagFn req stack [] st 0

/-! ## How `listen` reads its port argument -/

/-- Where `server.listen(arg, callback)` binds: a TCP port (0 lets the system
pick one); nowhere, because the port is out of range (`ERR_SOCKET_BAD_PORT`
is thrown); or a case left out here (text that is not a plain decimal
numeral, which Node reads through `Number(...)` and otherwise takes for the
path of a pipe). -/
inductive ListenTarget where
  | tcp (n : Nat)
  | badPort
  | unmodelled
  deriving DecidableEq, Repr

/-- Value of a run of decimal digits read left to right, `none` on any other character. -/
def decimalLoop : List Char → Nat → Option Nat
  | [], acc => some acc
  | c :: cs, acc => if c.isDigit then decimalLoop cs (10 * acc + (c.toNat - 48)) else none

/-- Value of a non-empty decimal numeral. -/
def decimalValue (cs : List Char) : Option Nat :=
  if cs.isEmpty then none else decimalLoop cs 0

/-- The port `listen` binds for a number or for a decimal numeral given as text. -/
def listenTarget : JSValue → ListenTarget
  | .num n => if 0 ≤ n ∧ n ≤ 65535 then .tcp n.toNat else .badPort
  | .str s =>
    match decimalValue s.toList with
    | some n => if n ≤ 65535 then .tcp n else .badPort
    | none => .unmodelled
  | .undefined => .unmodelled

/-! ## The program -/

/-- The body sent by the handler of line 6. -/
def GREETING : String := "Hello from a Dockerized Node app! 🚀"

/-- Lines 5-7: the handler `(req, res) => { res.send(GREETING) }`.  It reads
nothing from the request and touches no program state. -/
def greet : Handler := fun st _req => (st, .send GREETING)

/-- Lines 9-11: the callback given to `listen`, run once the server is listening. -/
def onListening (p : JSValue) (st : ProgramState) : ProgramState :=
  { st with console := st.console ++ ["Server running on port " ++ p.render] }

/-- What running index.js top to bottom sets up. -/
structure Program where
  port : JSValue
  routes : List Route
  listenArg : JSValue

/-- The module body: line 3 computes `port`, line 5 registers the one route
with `app.get('/', ...)`, line 9 calls `app.listen(port, ...)`. -/
def main (env : Env) : Program :=
  let p := port env
  { port := p
    routes := [{ path := .root, stack := [{ method := "GET", handle := greet }] }]
    listenArg := p }

/-- State of the program before anything is logged. -/
def initialState : ProgramState := { console := [] }

/-- One request served by the program started in environment `env` on Express
version `v`. -/
def serve (v : ExpressVersion) (etagFn : String → String) (env : Env) (st : ProgramState)
    (req : Request) : ProgramState × Outcome :=
  routerHandle v etagFn req (main env).routes st

/-- A sequence of requests served one after the other; returns the final state
and the outcomes in order. -/
def serveAll (v : ExpressVersion) (etagFn : String → String) (env : Env) :
    ProgramState → List Request → ProgramState × List Outcome
  | st, [] => (st, [])
  | st, req :: reqs =>
    let (st', out) := serve v etagFn env st req
    let (st'', outs) := serveAll v etagFn env st' reqs
    (st'', out :: outs)

/-! ## Sample requests -/

/-- A conditional GET on `/`: the client asks for the page unless it has any
version of it. -/
def conditionalGet : Request :=
  { method := "GET", path := "/", headers := [("if-none-match", "*")] }

/-- A plain GET on `/`. -/
def plainGet : Request := { method := "GET", path := "/" }

/-- A HEAD request on `/`. -/
def headRoot : Request := { method := "HEAD", path := "/" }

/-- A GET request on `//`. -/
def doubleSlashGet : Request := { method := "GET", path := "//" }

/-! ## Lemmas on the framework layer -/

/-- The one route of the program has GET handlers only. -/
theorem rootMethods :
    (Route.mk .root [{ method := "GET", handle := greet }]).methods = ["GET"] := by
  decide

/-- An OPTIONS request through `res.send` keeps its status and body. -/
theorem send_options (v : ExpressVersion) (etagFn : String → String) (req : Request)
    (chunk : String) (ho : req.method = "OPTIONS") :
    send v etagFn req 200 chunk = .sent 200 chunk := by
  simp [send, reqFresh, ho]

/-- The stack of the program on a request whose pathname the route accepts. -/
theorem routerNext_match (v : ExpressVersion) (etagFn : String → String) (env : Env)
    (st : ProgramState) (req : Request)
    (hmatch : matchLayer v ⟨.root, [{ method := "GET", handle := greet }]⟩ req.path = true) :
    routerNext v etagFn req (main env).routes [] st 0 =
      if req.method = "GET" ∨ req.method = "HEAD" then
        (st, ⟨send v etagFn req 200 GREETING, 1⟩)
      else if req.method = "OPTIONS" then
        (st, ⟨.sent 200 (if v = .v4 then "GET,HEAD" else "GET, HEAD"), 0⟩)
      else (st, ⟨.notFound, 0⟩) := by
  unfold main
  simp only [routerNext, hmatch, Route.handlesMethod, Route.options, rootMethods]
  by_cases hg : req.method = "GET"
  · simp [hg, Route.dispatch, greet]
  · by_cases hh : req.method = "HEAD"
    · simp [hh, Route.dispatch, greet]
    · by_cases ho : req.method = "OPTIONS"
      · have h4 : ",".intercalate ["GET", "HEAD"] = "GET,HEAD" := by decide
        have h5 : ", ".intercalate (sortStrings ["GET", "HEAD"].eraseDups) = "GET, HEAD" := by
          decide
        cases v
        · simp [ho, appendMethods, sendOptionsResponse, send_options, h4]
        · simp [ho, sendOptionsResponse, h5]
      · simp [hg, hh, ho]

/-- The stack of the program on a request whose pathname the route rejects. -/
theorem routerNext_nomatch (v : ExpressVersion) (etagFn : String → String) (env : Env)
    (st : ProgramState) (req : Request)
    (hmatch : matchLayer v ⟨.root, [{ method := "GET", handle := greet }]⟩ req.path = false) :
    routerNext v etagFn req (main env).routes [] st 0 = (st, ⟨.notFound, 0⟩) := by
  unfold main
  simp [routerNext, hmatch]

/-- The router of the program, case by case: an accepted pathname (`/`, and
`//` on Express 5) with GET or HEAD reaches the handler, with OPTIONS it gets
the automatic reply, all else the final handler. -/
theorem serve_eq (v : ExpressVersion) (etagFn : String → String) (env : Env)
    (st : ProgramState) (req : Request) :
    serve v etagFn env st req =
      if req.path = "/" ∨ (v = .v5 ∧ req.path = "//") then
        if req.method = "GET" ∨ req.method = "HEAD" then
          (st, ⟨send v etagFn req 200 GREETING, 1⟩)
        else if req.method = "OPTIONS" then
          (st, ⟨.sent 200 (if v = .v4 then "GET,HEAD" else "GET, HEAD"), 0⟩)
        else (st, ⟨.notFound, 0⟩)
      else (st, ⟨.notFound, 0⟩) := by
  unfold serve routerHandle
  by_cases he : req.path = ""
  · have h1 : req.path ≠ "/" := by rw [he]; decide
    have h2 : req.path ≠ "//" := by rw [he]; decide
    simp [he, h1, h2]
  · by_cases hacc : req.path = "/" ∨ (v = .v5 ∧ req.path = "//")
    · have hmatch :
          matchLayer v ⟨.root, [{ method := "GET", handle := greet }]⟩ req.path = true := by
        rcases hacc with h | ⟨hv, h⟩
        · cases v <;> simp [matchLayer, h]
        · subst hv
          simp [matchLayer, h]
      rw [routerNext_match v etagFn env st req hmatch]
      simp [he, hacc]
    · have hmatch :
          matchLayer v ⟨.root, [{ method := "GET", handle := greet }]⟩ req.path = false := by
        push_neg at hacc
        cases v
        · simp [matchLayer, he, hacc.1]
        · simp [matchLayer, hacc.1]
          exact hacc.2 rfl
      rw [routerNext_nomatch v etagFn env st req hmatch]
      simp [he, hacc]

/-- Serving a request leaves the program state as it was. -/
theorem serve_state (v : ExpressVersion) (etagFn : String → String) (env : Env)
    (st : ProgramState) (req : Request) : (serve v etagFn env st req).1 = st := by
  rw [serve_eq]
  split_ifs <;> rfl

/-- Serving any sequence of requests leaves the program state as it was. -/
theorem serveAll_state (v : ExpressVersion) (etagFn : String → String) (env : Env)
    (reqs : List Request) :
    ∀ st : ProgramState, (serveAll v etagFn env st reqs).1 = st := by
  induction reqs with
  | nil => intro st; rfl
  | cons req reqs ih =>
    intro st
    have h1 := serve_state v etagFn env st req
    have h2 := ih (serve v etagFn env st req).1
    simp only [serveAll]
    rw [h2]
    exact h1

/-- A GET request through `res.send` at status 200: 304 without body when
fresh, else the chunk at status 200. -/
theorem send_get (v : ExpressVersion) (etagFn : String → String) (req : Request)
    (chunk : String) (hm : req.method = "GET") :
    send v etagFn req 200 chunk =
      if fresh v req (etagFn chunk) then .sent 304 "" else .sent 200 chunk := by
  unfold send reqFresh
  by_cases hf : fresh v req (etagFn chunk) = true
  · simp [hm, hf]
  · simp [hm, hf]

/-- A HEAD request through `res.send` at status 200: never a body, status 304
when fresh, else 200. -/
theorem send_head (v : ExpressVersion) (etagFn : String → String) (req : Request)
    (chunk : String) (hm : req.method = "HEAD") :
    send v etagFn req 200 chunk =
      if fresh v req (etagFn chunk) then .sent 304 "" else .sent 200 "" := by
  unfold send reqFresh
  by_cases hf : fresh v req (etagFn chunk) = true
  · simp [hm, hf]
  · simp [hm, hf]

/-- A request with neither conditional header is never fresh. -/
theorem fresh_unconditional (v : ExpressVersion) (req : Request) (etag : String)
    (h1 : req.header "if-none-match" = none) (h2 : req.header "if-modified-since" = none) :
    fresh v req etag = false := by
  simp [fresh, h1, h2, present]

/-- A request whose only conditional header is `If-None-Match: *` is fresh
unless it asks for `no-cache`. -/
theorem fresh_star (v : ExpressVersion) (req : Request) (etag : String)
    (h1 : req.header "if-none-match" = some "*") (h2 : req.header "if-modified-since" = none)
    (h3 : req.header "cache-control" = none) :
    fresh v req etag = true := by
  cases v <;> simp [fresh, h1, h2, h3, present]

/-! ## Lemmas on decimal numerals -/

/-- A decimal digit character is recognised as a digit and has the digit's value. -/
theorem digitChar_value (m : Nat) (h : m < 10) :
    (Nat.digitChar m).isDigit = true ∧ (Nat.digitChar m).toNat - 48 = m := by
  interval_cases m <;> decide

/-- Reading back what `Nat.toDigitsCore` writes in front of its accumulator
shifts the value read so far by the digits written and adds `n`. -/
theorem decimalLoop_toDigitsCore (fuel : Nat) : ∀ (n : Nat) (acc : List Char), n < fuel →
    ∃ ds : List Char, Nat.toDigitsCore 10 fuel n acc = ds ++ acc ∧ ds ≠ [] ∧
      ∀ (k : Nat) (rest : List Char),
        decimalLoop (ds ++ rest) k = decimalLoop rest (k * 10 ^ ds.length + n) := by
  induction fuel with
  | zero => intro n acc h; omega
  | succ fuel ih =>
    intro n acc hn
    obtain ⟨hd, hv⟩ := digitChar_value (n % 10) (Nat.mod_lt _ (by decide))
    by_cases hq : n / 10 = 0
    · refine ⟨[Nat.digitChar (n % 10)], ?_, by simp, ?_⟩
      · simp [Nat.toDigitsCore, hq]
      · intro k rest
        have hlt : n < 10 := by omega
        have hmod : n % 10 = n := Nat.mod_eq_of_lt hlt
        show decimalLoop (Nat.digitChar (n % 10) :: rest) k = _
        simp only [decimalLoop, hd, if_true, hv, List.length_singleton, pow_one]
        rw [hmod, Nat.mul_comm]
    · obtain ⟨ds, hds, hne, hread⟩ := ih (n / 10) (Nat.digitChar (n % 10) :: acc) (by omega)
      refine ⟨ds ++ [Nat.digitChar (n % 10)], ?_, by simp, ?_⟩
      · simp [Nat.toDigitsCore, hq, hds]
      · intro k rest
        rw [List.append_assoc, hread]
        show decimalLoop (Nat.digitChar (n % 10) :: rest) _ = _
        simp only [decimalLoop, hd, if_true, hv, List.length_append, List.length_singleton,
          pow_succ]
        congr 1
        have := Nat.div_add_mod n 10
        ring_nf
        omega

/-- The decimal text of `n` reads back as `n`. -/
theorem decimalValue_toString (n : Nat) : decimalValue (toString n).toList = some n := by
  obtain ⟨ds, hds, hne, hread⟩ := decimalLoop_toDigitsCore (n + 1) n [] (Nat.lt_succ_self n)
  have hl : (toString n).toList = ds := by
    simp only [toString, Nat.repr, Nat.toDigits, List.asString, String.toList]
    simpa using hds
  rw [hl]
  have h := hread 0 []
  simp only [List.append_nil, decimalLoop] at h
  cases ds with
  | nil => exact absurd rfl hne
  | cons c cs =>
    simp only [decimalValue, List.isEmpty_cons, Bool.false_eq_true, if_false]
    rw [h]
    simp

/-! ## The port (claims C2, C3, C6, C9, C10) -/

/-- The value of `port` in terms of the PORT entry of the environment. -/
theorem port_eq (env : Env) :
    port env =
      match env.lookup "PORT" with
      | some s => if s = "" then .num 3000 else .str s
      | none => .num 3000 := by
  unfold port Env.get JSValue.or
  cases h : env.lookup "PORT" with
  | none => simp [JSValue.truthy]
  | some s =>
    by_cases hs : s = ""
    · simp [JSValue.truthy, hs]
    · simp [JSValue.truthy, hs]

/-- C2: in an environment where PORT is not set, the value passed to
`app.listen` is the number 3000. -/
theorem C2_port_default (env : Env) (h : env.lookup "PORT" = none) :
    (main env).listenArg = .num 3000 := by
  show port env = _
  rw [port_eq, h]

/-- C2 at an environment without PORT. -/
theorem C2_port_default_witness : (main [("HOME", "/root")]).listenArg = .num 3000 :=
  C2_port_default [("HOME", "/root")] (by decide)

/-- C3: when PORT holds the decimal text of a valid TCP port number `n`
(1 to 65535), the value passed to `app.listen` is that text and `listen` binds
TCP port `n`, a definite port (not 0, which lets the system choose); for `n`
other than 3000 this is not the default port. -/
theorem C3_port_from_env (env : Env) (n : Nat) (h0 : 0 < n) (h1 : n ≤ 65535)
    (h : env.lookup "PORT" = some (toString n)) :
    (main env).listenArg = .str (toString n) ∧
      listenTarget (main env).listenArg = .tcp n ∧
      listenTarget (main env).listenArg ≠ .tcp 0 ∧
      (n ≠ 3000 → listenTarget (main env).listenArg ≠ listenTarget (.num 3000)) := by
  have hne : toString n ≠ "" := by
    intro he
    have hv := decimalValue_toString n
    rw [he] at hv
    simp [decimalValue] at hv
  have harg : (main env).listenArg = .str (toString n) := by
    show port env = _
    rw [port_eq, h]
    simp [hne]
  have htcp : listenTarget (main env).listenArg = .tcp n := by
    rw [harg]
    simp only [listenTarget]
    rw [decimalValue_toString]
    simp [h1]
  refine ⟨harg, htcp, ?_, ?_⟩
  · rw [htcp]
    intro hc
    injection hc with hc
    omega
  intro h3000
  rw [htcp]
  simp only [listenTarget]
  intro hc
  have h3 : (ListenTarget.tcp n) = .tcp 3000 := by
    rw [hc]
    decide
  injection h3 with h3
  exact h3000 h3

/-- C3 at PORT=8080. -/
theorem C3_port_from_env_witness :
    (main [("PORT", "8080")]).listenArg = .str "8080" ∧
      listenTarget (main [("PORT", "8080")]).listenArg = .tcp 8080 :=
  have h := C3_port_from_env [("PORT", "8080")] 8080 (by decide) (by decide) (by decide)
  ⟨h.1, h.2.1⟩

/-- C6, as the code has it: the configured port is the integer 3000 when PORT
is unset or empty, and otherwise the text of PORT itself, a string; so it is
an integer exactly when PORT is unset or empty. -/
theorem C6_port_number_or_text (env : Env) :
    ((main env).port = .num 3000 ∨
      ∃ s, s ≠ "" ∧ env.lookup "PORT" = some s ∧ (main env).port = .str s) ∧
    ((main env).port.isInteger = true ↔
      (env.lookup "PORT" = none ∨ env.lookup "PORT" = some "")) := by
  show (port env = _ ∨ ∃ s, s ≠ "" ∧ _ ∧ port env = _) ∧ ((port env).isInteger = true ↔ _)
  rw [port_eq]
  cases h : env.lookup "PORT" with
  | none => simp [JSValue.isInteger]
  | some s =>
    by_cases hs : s = ""
    · simp [hs, JSValue.isInteger]
    · simp [hs, JSValue.isInteger]

/-- C6 fails as stated: with PORT=abc the configured port is the string
`"abc"`, which is not a number and not even the text of one. -/
theorem C6_counterexample :
    (main [("PORT", "abc")]).port = .str "abc" ∧
      (main [("PORT", "abc")]).port.isInteger = false ∧
      decimalValue "abc".toList = none := by
  decide

/-- C9: with PORT set to the empty string the configured port is 3000, the
same value as in an environment where PORT is unset. -/
theorem C9_port_empty (env env' : Env) (h : env.lookup "PORT" = some "")
    (h' : env'.lookup "PORT" = none) :
    (main env).listenArg = .num 3000 ∧ (main env).port = .num 3000 ∧
      (main env).listenArg = (main env').listenArg := by
  have h1 : port env = .num 3000 := by rw [port_eq, h]; simp
  have h2 : port env' = .num 3000 := by rw [port_eq, h']
  exact ⟨h1, h1, h1.trans h2.symm⟩

/-- C9 at PORT set to the empty string. -/
theorem C9_port_empty_witness :
    (main [("PORT", "")]).listenArg = .num 3000 ∧ (main [("PORT", "")]).port = .num 3000 ∧
      (main [("PORT", "")]).listenArg = (main []).listenArg :=
  C9_port_empty [("PORT", "")] [] (by decide) (by decide)

/-- C10: for every non-empty string `s`, with PORT set to `s` the value passed
to `app.listen` is the string `s` itself: it is not replaced by 3000, whatever
`s` is, and computing it cannot fail. -/
theorem C10_port_unvalidated (env : Env) (s : String) (hs : s ≠ "")
    (h : env.lookup "PORT" = some s) :
    (main env).listenArg = .str s ∧ (main env).listenArg ≠ .num 3000 := by
  have h1 : (main env).listenArg = .str s := by
    show port env = _
    rw [port_eq, h]
    simp [hs]
  refine ⟨h1, ?_⟩
  rw [h1]
  simp

/-- C10 at PORT=abc. -/
theorem C10_port_unvalidated_witness :
    (main [("PORT", "abc")]).listenArg = .str "abc" ∧
      (main [("PORT", "abc")]).listenArg ≠ .num 3000 :=
  C10_port_unvalidated [("PORT", "abc")] "abc" (by decide) (by decide)

/-! ## Requests (claims C1, C4, C5, C8) -/

/-- C1, as the code has it: on either Express version a GET request on `/` is
answered with status 200 and the greeting as body unless it is a fresh
conditional request, which is answered with 304 and no body; a request without
`If-None-Match` and `If-Modified-Since` headers always gets the 200 reply with
the greeting. -/
theorem C1_get_root (v : ExpressVersion) (etagFn : String → String) (env : Env)
    (st : ProgramState) (req : Request) (hm : req.method = "GET") (hp : req.path = "/") :
    (fresh v req (etagFn GREETING) = false →
      (serve v etagFn env st req).2.response = .sent 200 GREETING) ∧
    (fresh v req (etagFn GREETING) = true →
      (serve v etagFn env st req).2.response = .sent 304 "") ∧
    (req.header "if-none-match" = none → req.header "if-modified-since" = none →
      (serve v etagFn env st req).2.response = .sent 200 GREETING) := by
  have hs : (serve v etagFn env st req).2.response =
      if fresh v req (etagFn GREETING) then .sent 304 "" else .sent 200 GREETING := by
    rw [serve_eq]
    simp only [hp, hm, true_or, if_true]
    exact send_get v etagFn req GREETING hm
  refine ⟨?_, ?_, ?_⟩
  · intro hf
    rw [hs, hf]
    rfl
  · intro hf
    rw [hs, hf]
    rfl
  · intro h1 h2
    rw [hs, fresh_unconditional v req _ h1 h2]
    rfl

/-- C1 at a plain GET on the root path. -/
theorem C1_get_root_witness :
    (serve .v4 (fun _ => "") [] initialState plainGet).2.response =
      .sent 200 "Hello from a Dockerized Node app! 🚀" :=
  (C1_get_root .v4 (fun _ => "") [] initialState plainGet (by decide) (by decide)).2.2
    (by decide) (by decide)

/-- C1 fails as stated: the GET request on `/` with header `If-None-Match: *`
is answered with status 304 and an empty body, on either Express version and
whatever the entity tag. -/
theorem C1_counterexample :
    conditionalGet.method = "GET" ∧ conditionalGet.path = "/" ∧
      ∀ (v : ExpressVersion) (etagFn : String → String),
        (serve v etagFn [] initialState conditionalGet).2.response = .sent 304 "" ∧
        (serve v etagFn [] initialState conditionalGet).2.response.status ≠ 200 := by
  refine ⟨by decide, by decide, ?_⟩
  intro v etagFn
  have hf : fresh v conditionalGet (etagFn GREETING) = true :=
    fresh_star v conditionalGet _ rfl rfl rfl
  have hs : (serve v etagFn [] initialState conditionalGet).2.response = .sent 304 "" := by
    rw [serve_eq]
    have hp : conditionalGet.path = "/" := rfl
    have hm : conditionalGet.method = "GET" := rfl
    simp only [hp, hm, true_or, if_true]
    rw [send_get v etagFn conditionalGet GREETING hm, hf]
    rfl
  rw [hs]
  exact ⟨rfl, by decide⟩

/-- C4, as the code has it: on either Express version a GET request whose path
is neither `/` nor `//` is answered by the final handler with status 404, and
no route handler is called; on Express 4 the same holds for the path `//`. -/
theorem C4_get_other_path (v : ExpressVersion) (etagFn : String → String) (env : Env)
    (st : ProgramState) (req : Request) (_hm : req.method = "GET") (hp : req.path ≠ "/")
    (hpp : req.path ≠ "//" ∨ v = .v4) :
    (serve v etagFn env st req).2.response = .notFound ∧
      (serve v etagFn env st req).2.response.status = 404 ∧
      (serve v etagFn env st req).2.handlerCalls = 0 := by
  have hacc : ¬ (req.path = "/" ∨ (v = .v5 ∧ req.path = "//")) := by
    rintro (h | ⟨hv, h⟩)
    · exact hp h
    · rcases hpp with h' | h'
      · exact h' h
      · rw [hv] at h'
        exact absurd h' (by decide)
  rw [serve_eq, if_neg hacc]
  exact ⟨rfl, rfl, rfl⟩

/-- C4 at a GET on the path /missing, on Express 5. -/
theorem C4_get_other_path_witness :
    (serve .v5 (fun _ => "") [] initialState
        { method := "GET", path := "/missing" }).2.response = .notFound ∧
      (serve .v5 (fun _ => "") [] initialState
        { method := "GET", path := "/missing" }).2.response.status = 404 ∧
      (serve .v5 (fun _ => "") [] initialState
        { method := "GET", path := "/missing" }).2.handlerCalls = 0 :=
  C4_get_other_path .v5 (fun _ => "") [] initialState { method := "GET", path := "/missing" }
    (by decide) (by decide) (Or.inl (by decide))

/-- C4 fails as stated: on Express 5 the GET request on `//`, a path other than
`/`, reaches the greeting handler and is answered with status 200 and the
greeting, not 404. -/
theorem C4_counterexample :
    doubleSlashGet.method = "GET" ∧ doubleSlashGet.path ≠ "/" ∧
      ∀ etagFn : String → String,
        (serve .v5 etagFn [] initialState doubleSlashGet).2 = ⟨.sent 200 GREETING, 1⟩ ∧
        (serve .v5 etagFn [] initialState doubleSlashGet).2.response.status ≠ 404 ∧
        (serve .v5 etagFn [] initialState doubleSlashGet).2.handlerCalls ≠ 0 := by
  refine ⟨by decide, by decide, ?_⟩
  intro etagFn
  have hs : (serve .v5 etagFn [] initialState doubleSlashGet).2 = ⟨.sent 200 GREETING, 1⟩ := by
    rw [serve_eq]
    have hp : doubleSlashGet.path = "//" := rfl
    have hm : doubleSlashGet.method = "GET" := rfl
    simp only [hp, hm, true_or, and_self, or_true, if_true]
    rw [send_get .v5 etagFn doubleSlashGet GREETING hm,
      fresh_unconditional .v5 doubleSlashGet _ rfl rfl]
    rfl
  rw [hs]
  exact ⟨rfl, by decide, by decide⟩

/-- C5, as the code has it: on either Express version a request on `/` whose
method is none of GET, HEAD and OPTIONS is answered by the final handler with
status 404 and the greeting handler is not called; a HEAD request is served by
the GET handler, called once, and gets no body, with status 200, or 304 when
it is a fresh conditional request; an OPTIONS request gets, without any
handler call, the automatic 200 reply whose body lists GET and HEAD
(`GET,HEAD` on Express 4, `GET, HEAD` on Express 5). -/
theorem C5_root_other_method (v : ExpressVersion) (etagFn : String → String) (env : Env)
    (st : ProgramState) (req : Request) (hp : req.path = "/") (hg : req.method ≠ "GET") :
    (req.method ≠ "HEAD" → req.method ≠ "OPTIONS" →
      (serve v etagFn env st req).2.response = .notFound ∧
      (serve v etagFn env st req).2.response.status = 404 ∧
      (serve v etagFn env st req).2.handlerCalls = 0) ∧
    (req.method = "HEAD" →
      (serve v etagFn env st req).2.handlerCalls = 1 ∧
      (fresh v req (etagFn GREETING) = false →
        (serve v etagFn env st req).2.response = .sent 200 "") ∧
      (fresh v req (etagFn GREETING) = true →
        (serve v etagFn env st req).2.response = .sent 304 "") ∧
      (req.header "if-none-match" = none → req.header "if-modified-since" = none →
        (serve v etagFn env st req).2.response = .sent 200 "")) ∧
    (req.method = "OPTIONS" →
      (serve v etagFn env st req).2 =
        ⟨.sent 200 (if v = .v4 then "GET,HEAD" else "GET, HEAD"), 0⟩) := by
  rw [serve_eq]
  refine ⟨?_, ?_, ?_⟩
  · intro hh ho
    simp [hp, hg, hh, ho, Response.status]
  · intro hh
    simp only [hp, hh, true_or, or_true, if_true, true_and]
    rw [send_head v etagFn req GREETING hh]
    refine ⟨?_, ?_, ?_⟩
    · intro hf
      rw [hf]
      rfl
    · intro hf
      rw [hf]
      rfl
    · intro h1 h2
      rw [fresh_unconditional v req _ h1 h2]
      rfl
  · intro ho
    have h1 : ¬ ("OPTIONS" = "GET" ∨ "OPTIONS" = "HEAD") := by decide
    simp only [hp, ho, h1, true_or, if_true, if_false]

/-- C5 at a POST request on `/`: status 404 and no handler call. -/
theorem C5_root_other_method_witness :
    (serve .v4 (fun _ => "") [] initialState { method := "POST", path := "/" }).2.response
        = .notFound ∧
      (serve .v4 (fun _ => "") [] initialState
        { method := "POST", path := "/" }).2.response.status = 404 ∧
      (serve .v4 (fun _ => "") [] initialState
        { method := "POST", path := "/" }).2.handlerCalls = 0 :=
  (C5_root_other_method .v4 (fun _ => "") [] initialState { method := "POST", path := "/" }
    (by decide) (by decide)).1 (by decide) (by decide)

/-- C5 fails as stated: a HEAD request on `/` is not a GET request, yet on
either Express version the greeting handler is called and the reply has status
200 (without body), not 404. -/
theorem C5_counterexample :
    headRoot.path = "/" ∧ headRoot.method ≠ "GET" ∧
      ∀ (v : ExpressVersion) (etagFn : String → String),
        (serve v etagFn [] initialState headRoot).2 = ⟨.sent 200 "", 1⟩ ∧
        (serve v etagFn [] initialState headRoot).2.response.status ≠ 404 := by
  refine ⟨by decide, by decide, ?_⟩
  intro v etagFn
  have hs : (serve v etagFn [] initialState headRoot).2 = ⟨.sent 200 "", 1⟩ := by
    rw [serve_eq]
    have hp : headRoot.path = "/" := rfl
    have hm : headRoot.method = "HEAD" := rfl
    simp only [hp, hm, true_or, or_true, if_true]
    rw [send_head v etagFn headRoot GREETING hm, fresh_unconditional v headRoot _ rfl rfl]
    rfl
  rw [hs]
  exact ⟨rfl, by decide⟩

/-- C8, as the code has it: on either Express version serving a request never
changes the program state, after any sequence of earlier requests; the reply
to a GET request on `/` does not depend on the state, the query string or the
body, and two such requests that agree on freshness get the same outcome. -/
theorem C8_get_root_stateless (v : ExpressVersion) (etagFn : String → String) (env : Env)
    (st₁ st₂ : ProgramState) (req₁ req₂ : Request)
    (hm₁ : req₁.method = "GET") (hp₁ : req₁.path = "/")
    (hm₂ : req₂.method = "GET") (hp₂ : req₂.path = "/")
    (hf : fresh v req₁ (etagFn GREETING) = fresh v req₂ (etagFn GREETING)) :
    (serve v etagFn env st₁ req₁).2 = (serve v etagFn env st₂ req₂).2 ∧
      (serve v etagFn env st₁ req₁).1 = st₁ ∧
      (∀ history₁ history₂ : List Request,
        (serve v etagFn env (serveAll v etagFn env initialState history₁).1 req₁).2 =
          (serve v etagFn env (serveAll v etagFn env initialState history₂).1 req₂).2) ∧
      (∀ (st : ProgramState) (history : List Request),
        (serveAll v etagFn env st history).1 = st) := by
  have key : ∀ s₁ s₂ : ProgramState,
      (serve v etagFn env s₁ req₁).2 = (serve v etagFn env s₂ req₂).2 := by
    intro s₁ s₂
    rw [serve_eq, serve_eq]
    simp only [hp₁, hm₁, hp₂, hm₂, true_or, if_true]
    rw [send_get v etagFn req₁ GREETING hm₁, send_get v etagFn req₂ GREETING hm₂, hf]
  exact ⟨key st₁ st₂, serve_state v etagFn env st₁ req₁, fun _ _ => key _ _,
    fun st history => serveAll_state v etagFn env history st⟩

/-- C8 at two GET requests on the root path that differ in query, headers and body. -/
theorem C8_get_root_stateless_witness :
    (serve .v4 (fun _ => "") [] initialState plainGet).2 =
      (serve .v4 (fun _ => "") [] initialState
        { method := "GET", path := "/", query := "a=1", headers := [("accept", "text/html")],
          body := "x" }).2 :=
  (C8_get_root_stateless .v4 (fun _ => "") [] initialState initialState plainGet
    { method := "GET", path := "/", query := "a=1", headers := [("accept", "text/html")],
      body := "x" } (by decide) (by decide) (by decide) (by decide) (by decide)).1

/-- C8 fails as stated: on either Express version two GET requests on `/` that
differ only in their headers get replies of different status and body. -/
theorem C8_counterexample :
    plainGet.method = "GET" ∧ plainGet.path = "/" ∧
      conditionalGet.method = "GET" ∧ conditionalGet.path = "/" ∧
      ∀ (v : ExpressVersion) (etagFn : String → String),
        (serve v etagFn [] initialState plainGet).2.response = .sent 200 GREETING ∧
        (serve v etagFn [] initialState conditionalGet).2.response = .sent 304 "" ∧
        (serve v etagFn [] initialState plainGet).2.response.status ≠
          (serve v etagFn [] initialState conditionalGet).2.response.status := by
  refine ⟨by decide, by decide, by decide, by decide, ?_⟩
  intro v etagFn
  have h1 : (serve v etagFn [] initialState plainGet).2.response = .sent 200 GREETING := by
    rw [serve_eq]
    have hp : plainGet.path = "/" := rfl
    have hm : plainGet.method = "GET" := rfl
    simp only [hp, hm, true_or, if_true]
    rw [send_get v etagFn plainGet GREETING hm, fresh_unconditional v plainGet _ rfl rfl]
    rfl
  have h2 : (serve v etagFn [] initialState conditionalGet).2.response = .sent 304 "" := by
    have hf : fresh v conditionalGet (etagFn GREETING) = true :=
      fresh_star v conditionalGet _ rfl rfl rfl
    rw [serve_eq]
    have hp : conditionalGet.path = "/" := rfl
    have hm : conditionalGet.method = "GET" := rfl
    simp only [hp, hm, true_or, if_true]
    rw [send_get v etagFn conditionalGet GREETING hm, hf]
    rfl
  rw [h1, h2]
  exact ⟨rfl, rfl, by decide⟩

end AzureDocker
